import Mathlib

/-!
Verification of the hidden-form-field scanning engine of the
Autofill_Extension_Backend repository.

The embedding models the two scan services as pure Lean functions:
  * `src/services/advanceScan.service.ts` — the rendered-tier scan
    (`detectHiddenFormsWithPuppeteer`, with its in-page helpers
    `getHiddenReason`, `hasHiddenAncestor` and the per-input loop of
    `evaluateHiddenFields`), its risk thresholds and recommendations;
  * `src/services/simpleScan.service.ts` — the static-tier scan
    (`detectHiddenFormsWithJSDOM`, `isStaticallyHiddenWithReason`,
    `hasStaticallyHiddenAncestor`), its thresholds and recommendations;
  * the fire-and-forget iframe aggregation of the draft variant
    (`src/unnamed/part_000`, `detectHiddenFormsWithPuppeteer`).

Computed styles and geometry are snapshots (a record per element), the DOM
parent chain is a partial function on element ids, and asynchronous
behaviour (page navigation, per-frame evaluation) is modelled by passing
each step's outcome as an `Except` value.  The unbounded JavaScript
`while (parent)` loops are modelled with explicit fuel: a run that returns
`none` is a run whose loop is still going after `fuel` iterations, so
"the loop terminates" is "some fuel returns `some`".
-/

namespace AutofillScan

/-- Snapshot of the computed-style properties read by the classifiers
(`window.getComputedStyle(el)` in the source).  `leftPx` models
`parseInt(style.left)`: `none` is JavaScript `NaN` (every comparison with
`NaN` is false). -/
structure Style where
  display : String
  visibility : String
  opacity : String
  clip : String
  clipPath : String
  fontSize : String
  position : String
  leftPx : Option Int
  overflow : String
  color : String
  backgroundColor : String
deriving DecidableEq

/-- Snapshot of `el.getBoundingClientRect()`. -/
structure Rect where
  top : Int
  bottom : Int
  left : Int
  width : Int
  height : Int
deriving DecidableEq

/-- Snapshot of one DOM element: tag, the `.type` property value (`none`
models a missing/undefined property), the `name` and `aria-hidden`
attributes (`none` models `getAttribute` returning null), computed style,
bounding rect, offset geometry, and serialized markup (`outerHTML`). -/
structure Elem where
  tagName : String
  jsType : Option String
  nameAttr : Option String
  ariaHidden : Option String
  style : Style
  rect : Rect
  offsetWidth : Int
  offsetHeight : Int
  outerHTML : String
deriving DecidableEq

/-- The pieces of `window` the classifiers read. -/
structure Win where
  innerHeight : Int
deriving DecidableEq

/-- A document tree: per-id element snapshots and the `parentElement`
link (`none` at a root).  Ids not present in a concrete document simply
never occur in its input lists. -/
structure Dom where
  elems : Nat → Elem
  parent : Nat → Option Nat

/-- JavaScript `v || dflt` on a possibly-missing string property:
null/undefined and the empty string are falsy. -/
def jsOr (v : Option String) (dflt : String) : String :=
  match v with
  | none => dflt
  | some "" => dflt
  | some s => s

/-- JavaScript `a || b` on strings (empty string is falsy). -/
def jsOrS (a b : String) : String :=
  if a = "" then b else a

/-- The test `parseInt(style.left) <= -9999`; false on `NaN`. -/
def leftOffScreen : Option Int → Bool
  | some v => v ≤ -9999
  | none => false

/-- String.prototype.startsWith, written over character lists so that it
evaluates by kernel reduction. -/
def strStartsWith (s pre : String) : Bool :=
  pre.data.isPrefixOf s.data

/-- The model of `s.slice(0, n)`. -/
def strTake (s : String) (n : Nat) : String :=
  String.mk (s.data.take n)

/-- The model of `s.toLowerCase()` (ASCII, as used on tag names). -/
def lowerString (s : String) : String :=
  String.mk (s.data.map Char.toLower)

/-- The rendered-tier per-element classifier, from
`advanceScan.service.ts` lines 14-54 (`getHiddenReason`): a chain of
checks in fixed order, returning the first matching reason string, or
`none` when no signal fires. -/
def getHiddenReason (w : Win) (el : Elem) : Option String :=
  if el.style.display = "none" then some "Hidden via display: none"
  else if el.style.visibility = "hidden" then some "Hidden via visibility: hidden"
  else if el.style.opacity = "0" then some "Hidden via opacity: 0"
  else if el.style.clip ≠ "auto" ∧ el.style.clip ≠ "rect(auto, auto, auto, auto)" then
    some "Hidden via clip property"
  else if el.style.clipPath ≠ "none" then some "Hidden via clip-path property"
  else if el.style.fontSize = "0px" then some "Hidden via font-size: 0"
  else if el.style.position = "absolute" ∧ leftOffScreen el.style.leftPx = true then
    some "Hidden via absolute off-screen positioning"
  else if el.style.position = "fixed" ∧ (el.rect.bottom ≤ 0 ∨ el.rect.top ≥ w.innerHeight) then
    some "Hidden via fixed off-screen positioning"
  else if el.rect.width ≤ 10 ∨ el.rect.height ≤ 10 ∨ el.offsetWidth ≤ 10 ∨ el.offsetHeight ≤ 10 then
    some "Hidden via zero size"
  else if el.ariaHidden = some "true" then some "Hidden via aria-hidden attribute"
  else if el.style.overflow = "hidden" ∧ (el.rect.bottom ≤ 0 ∨ el.rect.top ≥ w.innerHeight) then
    some "Hidden via overflow hidden and off-screen"
  else if el.style.color = el.style.backgroundColor ∧ el.style.color ≠ "" then
    some "Hidden via color matching background"
  else none

/-- A fully visible element: no classifier signal fires on it. -/
def visStyle : Style :=
  ⟨"block", "visible", "1", "auto", "none", "16px", "static", none,
   "visible", "rgb(0, 0, 0)", "rgb(255, 255, 255)"⟩

/-- A bounding rect comfortably inside the viewport and above the
10-pixel size floor. -/
def visRect : Rect := ⟨0, 100, 0, 100, 100⟩

/-- A plain visible text input. -/
def visElem : Elem :=
  ⟨"INPUT", some "text", some "field", none, visStyle, visRect, 100, 100,
   "<input name=field>"⟩

/-- The visible input with `display: none` set on it. -/
def elDisplayNone : Elem :=
  { visElem with style := { visStyle with display := "none" } }

/-- The visible input with declared type `hidden`. -/
def hiddenTypeElem : Elem :=
  { visElem with jsType := some "hidden" }

/-- A window with an 800-pixel viewport height. -/
def win0 : Win := ⟨800⟩

/-- C1: an element whose computed display is `none` is classified with the
display-none reason and no other: `getHiddenReason` checks `display`
first and short-circuits, so its (unique) result is exactly the
display-none reason string. -/
theorem getHiddenReason_display_none (w : Win) (el : Elem)
    (h : el.style.display = "none") :
    getHiddenReason w el = some "Hidden via display: none" := by
  simp [getHiddenReason, h]

/-- Witness for C1 at a concrete element carrying `display: none`. -/
theorem getHiddenReason_display_none_witness :
    elDisplayNone.style.display = "none" ∧
    getHiddenReason win0 elDisplayNone = some "Hidden via display: none" :=
  ⟨rfl, getHiddenReason_display_none win0 elDisplayNone rfl⟩

/-- Result shape of `hasHiddenAncestor` in `advanceScan.service.ts`
(lines 56-67): `{ hidden: boolean; reason: string | null }`. -/
structure AncVerdict where
  hidden : Bool
  reason : Option String
deriving DecidableEq

/-- One fueled run of the `while (parent)` loop of `hasHiddenAncestor`
(`advanceScan.service.ts` lines 60-66), starting from a current parent
pointer.  `none` means the loop is still running after `fuel`
iterations; the source loop has no cycle guard, so it is not otherwise
bounded. -/
def ancLoop (w : Win) (d : Dom) : Nat → Option Nat → Option AncVerdict
  | _, none => some ⟨false, none⟩
  | 0, some _ => none
  | fuel + 1, some p =>
    match getHiddenReason w (d.elems p) with
    | some r => some ⟨true, some ("Ancestor: " ++ r)⟩
    | none => ancLoop w d fuel (d.parent p)

/-- The `hasHiddenAncestor` helper of `advanceScan.service.ts` lines
56-67, with explicit fuel for its unguarded loop. -/
def hasHiddenAncestor (w : Win) (d : Dom) (fuel : Nat) (e : Nat) : Option AncVerdict :=
  ancLoop w d fuel (d.parent e)

/-- The loop of `hasHiddenAncestor` terminates on this element: some
finite fuel suffices for it to produce a verdict. -/
def ancTerminatesOn (w : Win) (d : Dom) (e : Nat) : Prop :=
  ∃ fuel, (hasHiddenAncestor w d fuel e).isSome

/-- Iterate the `parentElement` link from a current pointer. -/
def iterParent (d : Dom) : Nat → Option Nat → Option Nat
  | 0, s => s
  | _ + 1, none => none
  | n + 1, some p => iterParent d n (d.parent p)

/-- The ancestor chain visited by the loop, as a list (truncated at
`fuel` links). -/
def ancChain (d : Dom) : Nat → Option Nat → List Nat
  | 0, _ => []
  | _ + 1, none => []
  | n + 1, some p => p :: ancChain d n (d.parent p)

/-- The reason of the first (nearest) element of a chain that
`getHiddenReason` classifies as hidden. -/
def firstHiddenReason (w : Win) (d : Dom) : List Nat → Option String
  | [] => none
  | p :: rest =>
    match getHiddenReason w (d.elems p) with
    | some r => some r
    | none => firstHiddenReason w d rest

/-- A two-element document whose parent links form a cycle of fully
visible nodes: parent(0) = 1 and parent(1) = 0. -/
def cycDom : Dom :=
  ⟨fun _ => visElem, fun n => if n = 0 then some 1 else if n = 1 then some 0 else none⟩

/-- A document whose element 0 is a visible input whose parent (element
1) carries `display: none`; element 1 is a root. -/
def chainDom : Dom :=
  ⟨fun n => if n = 1 then elDisplayNone else visElem,
   fun n => if n = 0 then some 1 else none⟩

/-- A one-element document: element 0 is a visible root input. -/
def rootDom : Dom := ⟨fun _ => visElem, fun _ => none⟩

/-- No classifier signal fires on the visible fixture element. -/
theorem getHiddenReason_visElem : getHiddenReason win0 visElem = none := by decide

/-- On the visible two-node cycle, the loop state alternates between the
two nodes and never produces a verdict, whatever the fuel. -/
theorem ancLoop_cycDom_none (n : Nat) :
    ancLoop win0 cycDom n (some 0) = none ∧ ancLoop win0 cycDom n (some 1) = none := by
  induction n with
  | zero => exact ⟨rfl, rfl⟩
  | succ n ih =>
    constructor
    · show ancLoop win0 cycDom (n + 1) (some 0) = none
      rw [ancLoop]
      simp only [cycDom, getHiddenReason_visElem]
      simpa using ih.2
    · show ancLoop win0 cycDom (n + 1) (some 1) = none
      rw [ancLoop]
      simp only [cycDom, getHiddenReason_visElem]
      simpa using ih.1

/-- C5 counterexample: on a malformed tree whose parent chain revisits a
node already seen (a two-node cycle of visible elements), the
`hasHiddenAncestor` loop never terminates — it does not stop and return
a no-hidden-ancestor verdict, because the source loop carries no cycle
guard. -/
theorem hasHiddenAncestor_cycle_diverges : ¬ ancTerminatesOn win0 cycDom 0 := by
  rintro ⟨n, h⟩
  have hp : cycDom.parent 0 = some 1 := rfl
  rw [hasHiddenAncestor, hp, (ancLoop_cycDom_none n).2] at h
  simp [Option.isSome] at h

/-- When the parent chain from the loop state runs out within the fuel,
the loop produces a verdict. -/
theorem ancLoop_isSome_of_iterParent (w : Win) (d : Dom) :
    ∀ (n : Nat) (s : Option Nat), iterParent d n s = none → (ancLoop w d n s).isSome := by
  intro n
  induction n with
  | zero =>
    intro s h
    rw [iterParent] at h
    rw [h]
    rfl
  | succ n ih =>
    intro s h
    cases s with
    | none => rfl
    | some p =>
      rw [iterParent] at h
      rw [ancLoop]
      cases hg : getHiddenReason w (d.elems p) with
      | some r => rfl
      | none =>
        simpa using ih (d.parent p) h

/-- C5 amended: on every input whose parent chain reaches a root within
`n` links, the loop of `hasHiddenAncestor` terminates within fuel `n`
(so traversal terminates on every well-formed finite tree); it is only
on a cyclic chain of non-hidden nodes that it loops forever. -/
theorem hasHiddenAncestor_terminates_acyclic (w : Win) (d : Dom) (e n : Nat)
    (h : iterParent d n (d.parent e) = none) :
    (hasHiddenAncestor w d n e).isSome := by
  rw [hasHiddenAncestor]
  exact ancLoop_isSome_of_iterParent w d n (d.parent e) h

/-- Witness for the amended C5 statement on a one-element rooted
document with zero fuel needed. -/
theorem hasHiddenAncestor_terminates_acyclic_witness :
    iterParent rootDom 0 (rootDom.parent 0) = none ∧
    (hasHiddenAncestor win0 rootDom 0 0).isSome :=
  ⟨rfl, hasHiddenAncestor_terminates_acyclic win0 rootDom 0 0 rfl⟩

/-- One reported hidden field of the rendered-tier scan
(`advanceScan.service.ts` lines 69-73): selector, suspicious flag,
reason string. -/
structure Finding where
  selector : String
  suspicious : Bool
  reason : String
deriving DecidableEq

/-- Appending the location tag to a reason, as in the template literal
`reason (location)` of `advanceScan.service.ts` lines 89 and 101. -/
def wrapLoc (s loc : String) : String :=
  s ++ " (" ++ loc ++ ")"

/-- The selector built at `advanceScan.service.ts` lines 85-87:
`tagName.toLowerCase()[name="<name attribute>"]`; a null attribute is
stringified to `null` by the template literal. -/
def selectorOf (el : Elem) : String :=
  lowerString el.tagName ++ "[name=\"" ++ el.nameAttr.getD "null" ++ "\"]"

/-- The body of the `inputs.forEach` callback of
`advanceScan.service.ts` lines 78-104 for one input: skip explicit
`type="hidden"` inputs, then try the direct classifier, then the
ancestor walk.  Produces at most one finding per input (`none` also
stands for a run whose ancestor loop exhausted its fuel). -/
def processInput (w : Win) (d : Dom) (fuel : Nat) (loc : String) (e : Nat) : Option Finding :=
  if jsOr (d.elems e).jsType "text" = "hidden" then none
  else
    match getHiddenReason w (d.elems e) with
    | some r => some ⟨selectorOf (d.elems e), true, wrapLoc r loc⟩
    | none =>
      match hasHiddenAncestor w d fuel e with
      | some v =>
        if v.hidden then
          some ⟨selectorOf (d.elems e), true, wrapLoc (v.reason.getD "null") loc⟩
        else none
      | none => none

/-- The in-frame evaluation of `advanceScan.service.ts` lines 74-106:
the findings pushed for the listed input-like elements, in document
order. -/
def evaluateHiddenFields (w : Win) (d : Dom) (fuel : Nat) (loc : String)
    (inputs : List Nat) : List Finding :=
  inputs.filterMap (processInput w d fuel loc)

/-- When the nearest hidden element of the visited chain has reason `r`,
the loop stops there and returns the ancestor-wrapped verdict. -/
theorem ancLoop_firstHidden (w : Win) (d : Dom) (r : String) :
    ∀ (n : Nat) (s : Option Nat),
      firstHiddenReason w d (ancChain d n s) = some r →
      ancLoop w d n s = some ⟨true, some ("Ancestor: " ++ r)⟩ := by
  intro n
  induction n with
  | zero =>
    intro s h
    rw [ancChain, firstHiddenReason] at h
    exact absurd h (by simp)
  | succ n ih =>
    intro s h
    cases s with
    | none =>
      rw [ancChain, firstHiddenReason] at h
      exact absurd h (by simp)
    | some p =>
      rw [ancChain] at h
      rw [firstHiddenReason] at h
      rw [ancLoop]
      cases hg : getHiddenReason w (d.elems p) with
      | some r' =>
        rw [hg] at h
        simp only [Option.some.injEq] at h
        rw [h]
      | none =>
        rw [hg] at h
        exact ih (d.parent p) h

/-- C6: for an element that is not directly classified hidden but whose
ancestor chain contains a hidden element, `hasHiddenAncestor` returns
the verdict of the nearest hidden ancestor, wrapped as inherited
(`Ancestor: ` plus the ancestor's own reason), and the finding emitted
for the element carries that ancestor reason under the wrapper (plus
the location tag). -/
theorem ancestor_reason_wrapped (w : Win) (d : Dom) (fuel e : Nat) (loc r : String)
    (h1 : firstHiddenReason w d (ancChain d fuel (d.parent e)) = some r)
    (h2 : getHiddenReason w (d.elems e) = none)
    (h3 : jsOr (d.elems e).jsType "text" ≠ "hidden") :
    hasHiddenAncestor w d fuel e = some ⟨true, some ("Ancestor: " ++ r)⟩ ∧
    processInput w d fuel loc e =
      some ⟨selectorOf (d.elems e), true, wrapLoc ("Ancestor: " ++ r) loc⟩ := by
  have ha : hasHiddenAncestor w d fuel e = some ⟨true, some ("Ancestor: " ++ r)⟩ := by
    rw [hasHiddenAncestor]
    exact ancLoop_firstHidden w d r fuel (d.parent e) h1
  refine ⟨ha, ?_⟩
  rw [processInput, if_neg h3, h2, ha]
  rfl

/-- Witness for C6: a visible input whose parent carries
`display: none` yields the wrapped ancestor finding. -/
theorem ancestor_reason_wrapped_witness :
    (firstHiddenReason win0 chainDom (ancChain chainDom 1 (chainDom.parent 0)) =
        some "Hidden via display: none" ∧
      getHiddenReason win0 (chainDom.elems 0) = none ∧
      jsOr (chainDom.elems 0).jsType "text" ≠ "hidden") ∧
    hasHiddenAncestor win0 chainDom 1 0 =
      some ⟨true, some ("Ancestor: " ++ "Hidden via display: none")⟩ ∧
    processInput win0 chainDom 1 "main page" 0 =
      some ⟨selectorOf (chainDom.elems 0), true,
            wrapLoc ("Ancestor: " ++ "Hidden via display: none") "main page"⟩ :=
  ⟨⟨by decide, by decide, by decide⟩,
   ancestor_reason_wrapped win0 chainDom 1 0 "main page" "Hidden via display: none"
     (by decide) (by decide) (by decide)⟩

/-- The risk table of `advanceScan.service.ts` lines 139-144:
`length >= 3 && length < 6` gives medium, else `length >= 7` gives
high, else the initial low. -/
def riskLevelAdvanced (n : Nat) : String :=
  if 3 ≤ n ∧ n < 6 then "medium"
  else if 7 ≤ n then "high"
  else "low"

/-- The risk table of `simpleScan.service.ts` lines 82-87:
`length >= 5 && length < 10` gives medium, else `length >= 10` gives
high, else low. -/
def riskLevelSimple (n : Nat) : String :=
  if 5 ≤ n ∧ n < 10 then "medium"
  else if 10 ≤ n then "high"
  else "low"

/-- The recommendation list of `advanceScan.service.ts` lines 146-154. -/
def recommendationsAdvanced (n : Nat) : List String :=
  if n > 0 then
    ["Review hidden fields to ensure they are not used for malicious autofill.",
     "Block autofill on hidden or suspicious fields."]
  else
    ["No suspicious hidden fields detected."]

/-- The recommendation list of `simpleScan.service.ts` lines 89-99. -/
def recommendationsSimple (n : Nat) : List String :=
  if n > 0 then
    ["Review hidden fields to ensure they are not used for malicious autofill.",
     "Consider blocking autofill on suspicious or hidden fields."]
  else
    ["No suspicious hidden fields detected."]

/-- C2 evaluation at the failing counts: the advanced-scan table drops
back to low at exactly 6 findings (between the `< 6` medium bound and
the `>= 7` high bound), so it is not monotone, while 7 findings do sit
at its high threshold; the simple-scan table maps 7 findings to medium,
not high. -/
theorem riskLevel_advanced_gap :
    riskLevelAdvanced 5 = "medium" ∧
    riskLevelAdvanced 6 = "low" ∧
    riskLevelAdvanced 7 = "high" ∧
    riskLevelSimple 7 = "medium" := by
  refine ⟨rfl, rfl, rfl, rfl⟩

/-- C9: whenever the finding count is positive, both scans recommend
reviewing hidden fields for malicious autofill use and blocking
autofill on hidden/suspicious fields; at count zero both emit the
single no-suspicious-fields message. -/
theorem recommendations_by_count (n : Nat) (h : 0 < n) :
    ("Review hidden fields to ensure they are not used for malicious autofill."
        ∈ recommendationsAdvanced n ∧
      "Block autofill on hidden or suspicious fields." ∈ recommendationsAdvanced n) ∧
    ("Review hidden fields to ensure they are not used for malicious autofill."
        ∈ recommendationsSimple n ∧
      "Consider blocking autofill on suspicious or hidden fields."
        ∈ recommendationsSimple n) ∧
    recommendationsAdvanced 0 = ["No suspicious hidden fields detected."] ∧
    recommendationsSimple 0 = ["No suspicious hidden fields detected."] := by
  rw [recommendationsAdvanced, recommendationsSimple, if_pos h, if_pos h]
  refine ⟨⟨by simp, by simp⟩, ⟨by simp, by simp⟩, rfl, rfl⟩

/-- Witness for C9 at one finding. -/
theorem recommendations_by_count_witness :
    0 < 1 ∧
    (("Review hidden fields to ensure they are not used for malicious autofill."
          ∈ recommendationsAdvanced 1 ∧
        "Block autofill on hidden or suspicious fields." ∈ recommendationsAdvanced 1) ∧
      ("Review hidden fields to ensure they are not used for malicious autofill."
          ∈ recommendationsSimple 1 ∧
        "Consider blocking autofill on suspicious or hidden fields."
          ∈ recommendationsSimple 1) ∧
      recommendationsAdvanced 0 = ["No suspicious hidden fields detected."] ∧
      recommendationsSimple 0 = ["No suspicious hidden fields detected."]) :=
  ⟨Nat.one_pos, recommendations_by_count 1 Nat.one_pos⟩

/-- Failure cases of the modelled asynchronous steps. -/
inductive ScanErr where
  | launchFailure : ScanErr
  | gotoFailure : ScanErr
  | frameFailure : ScanErr
  | fetchFailure : ScanErr
deriving DecidableEq

/-- The per-frame `.catch(err => [])` recovery of
`advanceScan.service.ts` lines 127-132: a failed frame evaluation
contributes the empty finding list. -/
def recoverFrame : Except ScanErr (List Finding) → List Finding
  | Except.ok l => l
  | Except.error _ => []

/-- The aggregation of `advanceScan.service.ts` lines 116-136: main-page
findings first, then every awaited frame result (with failures
recovered to empty lists) appended in frame discovery order. -/
def collectFindings (main : List Finding)
    (frames : List (Except ScanErr (List Finding))) : List Finding :=
  main ++ (frames.map recoverFrame).flatten

/-- The two observation points of the fire-and-forget aggregation of
`src/unnamed/part_000` lines 180-190: each iframe callback is an
un-awaited `async` function whose push runs only after its
`frame.evaluate` promise resolves, so the `return` statement executes
with only the main-page findings in the array; the pending callbacks
push into the already-returned (aliased) array afterwards. -/
structure FireAndForgetRun where
  returnedSnapshot : List Finding
  afterPending : List Finding
deriving DecidableEq

/-- The `part_000` aggregation: the snapshot at `return` time holds only
main-page findings; the iframe findings land only once the pending
un-awaited callbacks have run (here taken to complete in discovery
order — completion order is not actually deterministic). -/
def part000Aggregate (main : List Finding)
    (frames : List (Except ScanErr (List Finding))) : FireAndForgetRun :=
  ⟨main, main ++ (frames.map recoverFrame).flatten⟩

/-- A concrete main-page finding. -/
def mainFinding : Finding :=
  ⟨"input[name=\"a\"]", true, "Hidden via display: none (main page)"⟩

/-- A concrete iframe finding. -/
def frameFinding : Finding :=
  ⟨"input[name=\"b\"]", true, "Hidden via display: none (iframe (http://x))"⟩

/-- C3 evaluation at the failing input: with one main-page finding and
one iframe carrying one finding, the `part_000` variant returns a report
holding only the main-page finding — the iframe result is appended later
by an un-awaited asynchronous callback — whereas the awaited batch
aggregation of `advanceScan.service.ts` has already collected both, main
page first, then the frame, at return time. -/
theorem part000_unawaited_append :
    (part000Aggregate [mainFinding] [Except.ok [frameFinding]]).returnedSnapshot =
      [mainFinding] ∧
    (part000Aggregate [mainFinding] [Except.ok [frameFinding]]).afterPending =
      [mainFinding, frameFinding] ∧
    collectFindings [mainFinding] [Except.ok [frameFinding]] =
      [mainFinding, frameFinding] :=
  ⟨rfl, rfl, rfl⟩

/-- C4: a frame whose evaluation throws contributes exactly zero
findings, and the aggregate is identical to the aggregate of the scan
without that frame — the main document and every other frame are
untouched. -/
theorem frame_failure_isolation (main : List Finding)
    (frames : List (Except ScanErr (List Finding))) (i : Nat) (e : ScanErr)
    (h : frames.get? i = some (Except.error e)) :
    recoverFrame (Except.error e) = [] ∧
    collectFindings main frames = collectFindings main (frames.eraseIdx i) := by
  refine ⟨rfl, ?_⟩
  rw [collectFindings, collectFindings]
  congr 1
  induction frames generalizing i with
  | nil => simp at h
  | cons hd tl ih =>
    cases i with
    | zero =>
      simp only [List.get?] at h
      cases h
      simp [List.eraseIdx, recoverFrame]
    | succ j =>
      simp only [List.get?] at h
      rw [List.eraseIdx]
      simp only [List.map_cons, List.flatten_cons]
      rw [ih j h]

/-- Witness for C4: dropping the failing second frame leaves the
aggregate unchanged. -/
theorem frame_failure_isolation_witness :
    ([Except.ok [frameFinding], Except.error ScanErr.frameFailure] :
        List (Except ScanErr (List Finding))).get? 1 =
      some (Except.error ScanErr.frameFailure) ∧
    (recoverFrame (Except.error ScanErr.frameFailure) = [] ∧
      collectFindings [mainFinding]
          [Except.ok [frameFinding], Except.error ScanErr.frameFailure] =
        collectFindings [mainFinding]
          (([Except.ok [frameFinding], Except.error ScanErr.frameFailure] :
              List (Except ScanErr (List Finding))).eraseIdx 1)) :=
  ⟨rfl,
   frame_failure_isolation [mainFinding]
     [Except.ok [frameFinding], Except.error ScanErr.frameFailure] 1
     ScanErr.frameFailure rfl⟩

/-- The `metadata` part of the wire response (`ApiResponse` in both scan
services). -/
structure Metadata where
  riskLevel : String
  recommendations : List String
deriving DecidableEq

/-- The `ApiResponse` shape shared by `advanceScan.service.ts` and
`simpleScan.service.ts`. -/
structure ApiResponse where
  hiddenFields : List Finding
  metadata : Metadata
deriving DecidableEq

/-- The degraded report built by the catch blocks of both scan services
(`advanceScan.service.ts` lines 168-176, `simpleScan.service.ts` lines
111-119): no findings, low risk, one retry recommendation. -/
def scanFailedResponse : ApiResponse :=
  ⟨[], ⟨"low", ["Scan failed. Please retry or check the page manually."]⟩⟩

/-- The asynchronous steps of one puppeteer scan after the browser and
page are acquired: the outcome of `page.goto`, of the main-frame
evaluation, and of each discovered frame's evaluation (in discovery
order). -/
structure PageInput where
  gotoOutcome : Except ScanErr Unit
  mainEval : Except ScanErr (List Finding)
  frames : List (Except ScanErr (List Finding))

/-- The try/catch body of `detectHiddenFormsWithPuppeteer`
(`advanceScan.service.ts` lines 9-176): a `goto` failure or a
main-frame evaluation failure reaches the outer catch, which returns
the degraded report; otherwise findings are aggregated and the risk
metadata computed. -/
def advancedScanTry (p : PageInput) : ApiResponse :=
  match p.gotoOutcome with
  | Except.error _ => scanFailedResponse
  | Except.ok _ =>
    match p.mainEval with
    | Except.error _ => scanFailedResponse
    | Except.ok mainFields =>
      let allHiddenFields := collectFindings mainFields p.frames
      ⟨allHiddenFields,
       ⟨riskLevelAdvanced allHiddenFields.length,
        recommendationsAdvanced allHiddenFields.length⟩⟩

/-- The whole scan entry point of `advanceScan.service.ts` lines 3-180:
`puppeteer.launch` and `browser.newPage` run before the try block, so a
failure there is thrown to the caller; everything after runs inside
try/catch. -/
def detectHiddenFormsWithPuppeteer
    (launch : Except ScanErr PageInput) : Except ScanErr ApiResponse :=
  match launch with
  | Except.error e => Except.error e
  | Except.ok p => Except.ok (advancedScanTry p)

/-- C8 counterexample: a browser-launch failure happens before the
try/catch (`advanceScan.service.ts` lines 6-7), so on that failure path
the raw failure is propagated to the caller as a thrown error rather
than being converted into the degraded report. -/
theorem launch_failure_propagates :
    detectHiddenFormsWithPuppeteer (Except.error ScanErr.launchFailure) =
      Except.error ScanErr.launchFailure ∧
    detectHiddenFormsWithPuppeteer (Except.error ScanErr.launchFailure) ≠
      Except.ok scanFailedResponse :=
  ⟨rfl, by simp [detectHiddenFormsWithPuppeteer]⟩

/-- C8 amended: once the browser and page are acquired, no failure path
throws — the scan always returns a report, and a document-provider
failure during navigation (page unreachable, render timeout) yields the
well-formed degraded report with zero findings, risk low and the single
manual-re-check recommendation. -/
theorem goto_failure_degrades (p q : PageInput) (err : ScanErr)
    (h : p.gotoOutcome = Except.error err) :
    detectHiddenFormsWithPuppeteer (Except.ok p) = Except.ok scanFailedResponse ∧
    scanFailedResponse.hiddenFields = [] ∧
    scanFailedResponse.metadata.riskLevel = "low" ∧
    scanFailedResponse.metadata.recommendations =
      ["Scan failed. Please retry or check the page manually."] ∧
    (∃ resp, detectHiddenFormsWithPuppeteer (Except.ok q) = Except.ok resp) := by
  refine ⟨?_, rfl, rfl, rfl, ⟨advancedScanTry q, rfl⟩⟩
  rw [detectHiddenFormsWithPuppeteer, advancedScanTry, h]

/-- Witness for the amended C8 statement on a concrete navigation
failure. -/
theorem goto_failure_degrades_witness :
    (PageInput.mk (Except.error ScanErr.gotoFailure) (Except.ok []) []).gotoOutcome =
      Except.error ScanErr.gotoFailure ∧
    (detectHiddenFormsWithPuppeteer
        (Except.ok (PageInput.mk (Except.error ScanErr.gotoFailure) (Except.ok []) [])) =
      Except.ok scanFailedResponse ∧
    scanFailedResponse.hiddenFields = [] ∧
    scanFailedResponse.metadata.riskLevel = "low" ∧
    scanFailedResponse.metadata.recommendations =
      ["Scan failed. Please retry or check the page manually."] ∧
    (∃ resp, detectHiddenFormsWithPuppeteer
        (Except.ok (PageInput.mk (Except.ok ()) (Except.ok [mainFinding]) [])) =
      Except.ok resp)) :=
  ⟨rfl,
   goto_failure_degrades
     (PageInput.mk (Except.error ScanErr.gotoFailure) (Except.ok []) [])
     (PageInput.mk (Except.ok ()) (Except.ok [mainFinding]) [])
     ScanErr.gotoFailure rfl⟩

/-- The direct static-tier signals checked at the top of
`isStaticallyHiddenWithReason` (`simpleScan.service.ts` lines 128-137):
display, visibility, opacity and the aria-hidden attribute, in that
order. -/
def staticDirectReason (el : Elem) : Option String :=
  if el.style.display = "none" then some "Hidden via display: none"
  else if el.style.visibility = "hidden" then some "Hidden via visibility: hidden"
  else if el.style.opacity = "0" then some "Hidden via opacity: 0"
  else if el.ariaHidden = some "true" then some "Hidden via aria-hidden attribute"
  else none

mutual

/-- The static classifier `isStaticallyHiddenWithReason` of
`simpleScan.service.ts` lines 124-144: direct signals first, then the
ancestor walk, whose own verdict is wrapped with `Ancestor: `.  The
walk recurses into the classifier at every parent with no cycle guard;
`none` models a run that exhausted its fuel. -/
def isStaticallyHiddenWithReason (d : Dom) (fuel : Nat) (e : Nat) :
    Option (Bool × String) :=
  match fuel with
  | 0 => none
  | n + 1 =>
    match staticDirectReason (d.elems e) with
    | some r => some (true, r)
    | none =>
      match hasStaticallyHiddenAncestor d n (d.parent e) with
      | none => none
      | some (true, r) => some (true, "Ancestor: " ++ r)
      | some (false, _) => some (false, "")

/-- The `while (parent)` walk `hasStaticallyHiddenAncestor` of
`simpleScan.service.ts` lines 146-157, from a current parent pointer. -/
def hasStaticallyHiddenAncestor (d : Dom) (fuel : Nat) (s : Option Nat) :
    Option (Bool × String) :=
  match fuel, s with
  | _, none => some (false, "")
  | 0, some _ => none
  | n + 1, some p =>
    match isStaticallyHiddenWithReason d n p with
    | none => none
    | some (true, r) => some (true, r)
    | some (false, _) => hasStaticallyHiddenAncestor d n (d.parent p)

end

/-- A parsed static document as `detectHiddenFormsWithJSDOM` walks it:
the forms (each with its `action` and its input-like descendants, in
document order), the whole-document input list, the
`input.closest("form")` predicate, and the element/parent tables. -/
structure SimpleDoc where
  forms : List (String × List Nat)
  allInputs : List Nat
  inForm : Nat → Bool
  dom : Dom

/-- One iteration of the per-form input loop of
`simpleScan.service.ts` lines 39-57: skip explicit `type="hidden"`
inputs, classify the rest, and report with the form-scoped selector and
the `within form` location. -/
def simpleFormEntry (d : Dom) (fuel : Nat) (url action : String) (e : Nat) :
    Option Finding :=
  if jsOr (d.elems e).jsType "text" = "hidden" then none
  else
    match isStaticallyHiddenWithReason d fuel e with
    | some (true, r) =>
      some ⟨"form[action=\"" ++ action ++ "\"] input[name=\"" ++
              (d.elems e).nameAttr.getD "null" ++ "\"]",
            true,
            r ++ " (within form: " ++ jsOrS action (jsOrS url "unknown") ++ ")"⟩
    | _ => none

/-- The findings of one form (`simpleScan.service.ts` lines 34-58). -/
def simpleFormFindings (d : Dom) (fuel : Nat) (url : String)
    (form : String × List Nat) : List Finding :=
  form.2.filterMap (simpleFormEntry d fuel url form.1)

/-- One iteration of the orphan-input loop of `simpleScan.service.ts`
lines 65-79: skip explicit `type="hidden"` inputs, classify, and report
only inputs with no enclosing form, with the truncated-markup selector
and the `orphan input` reason qualifier. -/
def simpleOrphanEntry (d : Dom) (fuel : Nat) (inForm : Nat → Bool) (e : Nat) :
    Option Finding :=
  if jsOr (d.elems e).jsType "text" = "hidden" then none
  else
    match isStaticallyHiddenWithReason d fuel e with
    | some (true, r) =>
      if inForm e then none
      else some ⟨strTake (d.elems e).outerHTML 100, true, r ++ " (orphan input)"⟩
    | _ => none

/-- The successful-fetch body of `detectHiddenFormsWithJSDOM`
(`simpleScan.service.ts` lines 16-107): form-bound findings in form
order, then orphan findings, then the risk metadata (the degenerate
`window not found` branch of line 26 is not modelled: a parsed document
always carries its window). -/
def simpleScanSucceed (doc : SimpleDoc) (fuel : Nat) (url : String) : ApiResponse :=
  let fields :=
    (doc.forms.map (simpleFormFindings doc.dom fuel url)).flatten ++
      doc.allInputs.filterMap (simpleOrphanEntry doc.dom fuel doc.inForm)
  ⟨fields, ⟨riskLevelSimple fields.length, recommendationsSimple fields.length⟩⟩

/-- The static scan entry point of `simpleScan.service.ts` lines 4-121:
the whole body sits in a try/catch; a URL that does not start with
`http` raises before any fetch, and the catch converts that error (and
any fetch failure) into the degraded report. -/
def detectHiddenFormsWithJSDOM (url : String) (fuel : Nat)
    (fetch : Except ScanErr SimpleDoc) : ApiResponse :=
  if strStartsWith url "http" then
    match fetch with
    | Except.error _ => scanFailedResponse
    | Except.ok doc => simpleScanSucceed doc fuel url
  else scanFailedResponse

/-- The older static scan of `scanPage.service.ts` lines 7-101, which
returns only `{ hiddenFields }`: same `http` guard and try/catch, with
the catch returning an empty field list; its traversal is abstracted as
`body` since no claim depends on it. -/
def detectHiddenFormsWithJSDOMBasic (url : String)
    (fetch : Except ScanErr SimpleDoc) (body : SimpleDoc → List Finding) :
    List Finding :=
  if strStartsWith url "http" then
    match fetch with
    | Except.error _ => []
    | Except.ok doc => body doc
  else []

/-- C10: a URL that does not start with `http` never propagates an
error out of the jsdom scans: whatever the fetch would have produced,
the raised invalid-URL error is caught and yields exactly the degraded
provider-failure result (empty findings with risk low and the single
retry recommendation in the variant with metadata; an empty field list
in the older variant). -/
theorem jsdom_invalid_url_degrades (url : String) (fuel : Nat)
    (fetch fetch2 : Except ScanErr SimpleDoc) (body : SimpleDoc → List Finding)
    (h : strStartsWith url "http" = false) :
    detectHiddenFormsWithJSDOM url fuel fetch = scanFailedResponse ∧
    detectHiddenFormsWithJSDOM url fuel (Except.error ScanErr.fetchFailure) =
      scanFailedResponse ∧
    detectHiddenFormsWithJSDOMBasic url fetch2 body = [] := by
  simp only [detectHiddenFormsWithJSDOM, detectHiddenFormsWithJSDOMBasic, h]
  exact ⟨rfl, rfl, rfl⟩

/-- Witness for C10 at a concrete non-http URL. -/
theorem jsdom_invalid_url_degrades_witness :
    strStartsWith "ftp://site.example" "http" = false ∧
    (detectHiddenFormsWithJSDOM "ftp://site.example" 1
        (Except.ok ⟨[], [], fun _ => false, rootDom⟩) = scanFailedResponse ∧
      detectHiddenFormsWithJSDOM "ftp://site.example" 1
        (Except.error ScanErr.fetchFailure) = scanFailedResponse ∧
      detectHiddenFormsWithJSDOMBasic "ftp://site.example"
        (Except.ok ⟨[], [], fun _ => false, rootDom⟩) (fun _ => [mainFinding]) = []) :=
  ⟨by decide,
   jsdom_invalid_url_degrades "ftp://site.example" 1
     (Except.ok ⟨[], [], fun _ => false, rootDom⟩)
     (Except.ok ⟨[], [], fun _ => false, rootDom⟩)
     (fun _ => [mainFinding]) (by decide)⟩

/-- A document whose only element is the explicit `type="hidden"`
input. -/
def hiddenTypeDom : Dom := ⟨fun _ => hiddenTypeElem, fun _ => none⟩

/-- A static document holding one form with the single explicit
`type="hidden"` input, which is also the only input of the document. -/
def hiddenTypeDoc : SimpleDoc :=
  ⟨[("http://form.example/submit", [0])], [0], fun _ => true, hiddenTypeDom⟩

/-- C7: a document whose only input-like element declares
`type="hidden"` produces zero findings and risk level low under the
skip-explicit-hidden policy of both scans — the input is skipped before
any style-based evaluation (so this holds whatever its styles are), and
the zero-count aggregation gives the low level with the single
no-suspicious-fields recommendation. -/
theorem explicit_hidden_skipped (w : Win) (doc : SimpleDoc) (fuel : Nat)
    (url loc a : String) (e : Nat)
    (h1 : doc.forms = [(a, [e])])
    (h2 : doc.allInputs = [e])
    (h3 : jsOr (doc.dom.elems e).jsType "text" = "hidden") :
    simpleScanSucceed doc fuel url =
      ⟨[], ⟨"low", ["No suspicious hidden fields detected."]⟩⟩ ∧
    evaluateHiddenFields w doc.dom fuel loc [e] = [] ∧
    riskLevelAdvanced 0 = "low" := by
  have hf : simpleFormEntry doc.dom fuel url a e = none := by
    rw [simpleFormEntry, if_pos h3]
  have ho : simpleOrphanEntry doc.dom fuel doc.inForm e = none := by
    rw [simpleOrphanEntry, if_pos h3]
  refine ⟨?_, ?_, rfl⟩
  · rw [simpleScanSucceed, h1, h2]
    simp only [List.map_cons, List.map_nil, List.flatten_cons, List.flatten_nil,
      simpleFormFindings, List.filterMap_cons, hf, ho, List.filterMap_nil,
      List.append_nil, List.nil_append]
    rfl
  · rw [evaluateHiddenFields, List.filterMap_cons]
    rw [processInput, if_pos h3]
    rfl

/-- Witness for C7 on the concrete one-form, one-hidden-input
document. -/
theorem explicit_hidden_skipped_witness :
    (hiddenTypeDoc.forms = [("http://form.example/submit", [0])] ∧
      hiddenTypeDoc.allInputs = [0] ∧
      jsOr (hiddenTypeDoc.dom.elems 0).jsType "text" = "hidden") ∧
    simpleScanSucceed hiddenTypeDoc 1 "http://site.example" =
      ⟨[], ⟨"low", ["No suspicious hidden fields detected."]⟩⟩ ∧
    evaluateHiddenFields win0 hiddenTypeDoc.dom 1 "main page" [0] = [] ∧
    riskLevelAdvanced 0 = "low" :=
  ⟨⟨rfl, rfl, rfl⟩,
   explicit_hidden_skipped win0 hiddenTypeDoc 1 "http://site.example" "main page"
     "http://form.example/submit" 0 rfl rfl rfl⟩

end AutofillScan
